import Mathlib

/-!
Shallow embedding of vulcan_logger (src/vulcan_logger/logger.py), a thin
wrapper around a standard logging facility, together with theorems settling
the frozen claims about it.

Modelling conventions:
  - Python strings are Lean String; the Python string operations used by the
    code (endswith, upper, os.path.basename, os.path.join) are modelled over
    String.data so that the kernel can evaluate them on concrete inputs.
  - Exceptions are modelled as String payloads; a Python function that may
    raise returns (Except String α) × Sys, where Sys is the mutable world
    (the wrapped logger state, the filesystem and the output streams).
    A Python try/except block becomes a match on the Except value.
  - External collaborators (coloredlogs.install, os.makedirs,
    logging.FileHandler, the underlying logger record emission) are modelled
    as primitives parameterised by a fault-injection World: each primitive
    either raises the injected fault or performs its documented effect.
  - The call stack seen by inspect.stack is an explicit list of frames.
-/

/-- One stack frame as seen by inspect.stack: source file path and line. -/
structure Frame where
  filename : String
  lineno : Nat
deriving DecidableEq, Repr

/-- The dictionary returned by Logger._stack_trace. -/
structure CallerInfo where
  caller_filename : String
  caller_lineno : Nat
deriving DecidableEq, Repr

/-- The five public severity methods. -/
inductive Level
  | debug
  | info
  | warning
  | critical
  | error
deriving DecidableEq, Repr

/-- A record emitted through the underlying logger. -/
structure Record where
  level : Level
  message : String
  caller : CallerInfo
  exc_info : Bool
deriving DecidableEq, Repr

/-- Where a handler sends records: the console or a file at a path. -/
inductive Sink
  | console
  | file (path : String)
deriving DecidableEq, Repr

/-- A handler attached to the underlying logger: threshold level,
record format, timestamp format and destination. -/
structure Handler where
  level : String
  fmt : String
  datefmt : String
  sink : Sink
deriving DecidableEq, Repr

/-- The process environment: the three optional variables the code reads.
none models an unset variable; some "" models a variable set to empty. -/
structure Env where
  VULCAN_LOG_LEVEL : Option String
  log_path : Option String
  VULCAN_LOG_NAME : Option String
deriving DecidableEq, Repr

/-- Fault injection for the external collaborators: some e means the
corresponding operation raises an exception with payload e. -/
structure World where
  installFault : Option String
  makedirsFault : Option String
  fileHandlerFault : Option String
  dispatchFault : Option String
deriving DecidableEq, Repr

/-- The mutable world threaded through every operation: the wrapper
attribute self.level, the underlying logger handler list, the set of
existing directories and files, the emitted records and the two standard
streams of the process. -/
structure Sys where
  selfLevel : String
  handlers : List Handler
  dirs : List String
  files : List String
  records : List Record
  stdout : List String
  stderr : List String
deriving DecidableEq, Repr

/-! ### String operations (models of the Python operations used) -/

/-- Model of Python str.endswith with a single suffix. -/
def strEndsWith (s suf : String) : Bool := List.isSuffixOf suf.data s.data

/-- Model of Python str.endswith with a tuple: true when the string ends
with any suffix in the list. -/
def endsWithAny (s : String) (sufs : List String) : Bool :=
  sufs.any (fun suf => strEndsWith s suf)

/-- Splits a character list at every occurrence of c. -/
def splitChar (c : Char) : List Char → List (List Char)
  | [] => [[]]
  | x :: xs =>
    let r := splitChar c xs
    if x = c then [] :: r
    else match r with
      | [] => [[x]]
      | y :: ys => (x :: y) :: ys

/-- Model of os.path.basename: final path segment after the last slash. -/
def basename (p : String) : String := String.mk ((splitChar '/' p.data).getLastD [])

/-- Model of Python str.upper. -/
def strUpper (s : String) : String := String.mk (s.data.map Char.toUpper)

/-- Model of Python truthiness of a string from os.environ.get: an unset
variable (none) and the empty string are falsy. -/
def envTruthy : Option String → Bool
  | none => false
  | some s => !(s = "")

/-- Model of os.path.join for a directory and a file name: when the second
component is absolute it wins, otherwise the components are joined with a
single separator. -/
def path_join (a b : String) : String :=
  if b.data.headD ' ' = '/' then b
  else if a = "" then b
  else if strEndsWith a "/" then a ++ b
  else a ++ "/" ++ b

/-- The proper ancestor directories of a path, outermost first, excluding
the path itself. -/
def parentDirs (p : String) : List String :=
  let parts := splitChar '/' p.data
  (List.range (parts.length - 1)).map
    (fun i => String.mk (List.intercalate ['/'] (parts.take (i + 1))))

/-- The path itself together with all its ancestor directories. -/
def ancestorDirs (p : String) : List String := parentDirs p ++ [p]

/-! ### Module constants of logger.py -/

/-- The EXCLUDE tuple of logger.py: suffixes of file paths whose frames the
caller resolution skips. -/
def EXCLUDE : List String :=
  ["decorator.py", "logger.py", "logging/__init__.py", "<frozen importlib._bootstrap>"]

/-- The LOG_FORMAT constant of logger.py. -/
def LOG_FORMAT : String :=
  "%(asctime)s - %(name)s - %(levelname)s - %(message)s - (%(caller_filename)s:%(caller_lineno)d)"

/-- The DATE_FORMAT constant of logger.py. -/
def DATE_FORMAT : String := "%Y-%m-%d %H:%M:%S"

/-- The line _internal_error builds: the f-string
f"Internal Logger Error: {message} | Exception: {exc}" of logger.py. -/
def fallbackLine (message exc : String) : String :=
  "Internal Logger Error: " ++ message ++ " | Exception: " ++ exc

/-! ### External collaborator primitives (fault-injectable) -/

/-- Model of coloredlogs.install(level, logger, fmt, datefmt): attaches a
colourised console handler to the logger, or raises the injected fault. -/
def coloredlogs_install (w : World) (lvl fmt dfmt : String) (s : Sys) :
    Except String Unit × Sys :=
  match w.installFault with
  | some e => (Except.error e, s)
  | none => (Except.ok (), { s with handlers := s.handlers ++ [⟨lvl, fmt, dfmt, Sink.console⟩] })

/-- Model of os.makedirs(p, exist_ok=True): creates the directory and every
missing parent; an already existing directory is never an error; only the
injected fault raises. -/
def os_makedirs (w : World) (p : String) (s : Sys) : Except String Unit × Sys :=
  match w.makedirsFault with
  | some e => (Except.error e, s)
  | none => (Except.ok (), { s with dirs := s.dirs ++ ancestorDirs p })

/-- Model of calling the underlying logger severity method
(self.logger.debug and friends) with message, extra caller info and the
exc_info flag: appends one record, or raises the injected fault. -/
def logging_call (w : World) (lvl : Level) (message : String) (ci : CallerInfo)
    (ei : Bool) (s : Sys) : Except String Unit × Sys :=
  match w.dispatchFault with
  | some e => (Except.error e, s)
  | none => (Except.ok (), { s with records := s.records ++ [⟨lvl, message, ci, ei⟩] })

/-! ### The Logger class -/

namespace Logger

/-- Logger._internal_error: builds the final message and prints it.
Python print with no file argument writes to standard output. -/
def _internal_error (message exc : String) (s : Sys) : Except String Unit × Sys :=
  let final_message := fallbackLine message exc
  (Except.ok (), { s with stdout := s.stdout ++ [final_message] })

/-- The expression os.environ.get("VULCAN_LOG_LEVEL", self.level).upper()
used by both sink installers. -/
def eff_level (env : Env) (s : Sys) : String :=
  strUpper (env.VULCAN_LOG_LEVEL.getD s.selfLevel)

/-- Logger._install_coloredlogs: try coloredlogs.install, on any exception
report via _internal_error. -/
def _install_coloredlogs (w : World) (env : Env) (s : Sys) : Except String Unit × Sys :=
  match coloredlogs_install w (eff_level env s) LOG_FORMAT DATE_FORMAT s with
  | (Except.ok _, s1) => (Except.ok (), s1)
  | (Except.error e, s1) => _internal_error "Error installing coloredlogs" e s1

/-- Logger._file_name: f-string of os.environ.get of VULCAN_LOG_NAME with
default vulcan, followed by the .log extension. -/
def _file_name (env : Env) : String :=
  env.VULCAN_LOG_NAME.getD "vulcan" ++ ".log"

/-- Logger._make_dir: if the directory does not exist, create it with
os.makedirs; on any exception report via _internal_error. -/
def _make_dir (w : World) (log_path : String) (s : Sys) : Except String Unit × Sys :=
  if s.dirs.contains log_path then (Except.ok (), s)
  else
    match os_makedirs w log_path s with
    | (Except.ok _, s1) => (Except.ok (), s1)
    | (Except.error e, s1) => _internal_error "Error creating the log directory" e s1

/-- Logger._file_handler: join the path, open a FileHandler there, set its
level to the effective level, give it the shared formatter and attach it;
on any exception report via _internal_error. -/
def _file_handler (w : World) (env : Env) (log_path : String) (s : Sys) :
    Except String Unit × Sys :=
  let fullPath := path_join log_path ( _file_name env)
  match w.fileHandlerFault with
  | some e => _internal_error "Error creating log file handler" e s
  | none =>
    let h : Handler := ⟨eff_level env s, LOG_FORMAT, DATE_FORMAT, Sink.file fullPath⟩
    (Except.ok (),
      { s with
        handlers := s.handlers ++ [h],
        files := if s.files.contains fullPath then s.files else s.files ++ [fullPath] })

/-- Logger._setup: install coloredlogs, then, when the log_path environment
variable is truthy, create the directory and attach the file handler inside
one more try/except reporting via _internal_error. -/
def _setup (w : World) (env : Env) (s : Sys) : Except String Unit × Sys :=
  match _install_coloredlogs w env s with
  | (Except.error e, s1) => (Except.error e, s1)
  | (Except.ok _, s1) =>
    if envTruthy env.log_path then
      let log_path := env.log_path.getD ""
      match _make_dir w log_path s1 with
      | (Except.error e, s2) => _internal_error "Error setting up file handler for logger" e s2
      | (Except.ok _, s2) =>
        match _file_handler w env log_path s2 with
        | (Except.error e, s3) => _internal_error "Error setting up file handler for logger" e s3
        | (Except.ok _, s3) => (Except.ok (), s3)
    else (Except.ok (), s1)

/-- Logger.__init__: acquire the named logger, store the upper-cased level
and run _setup. -/
def init (w : World) (env : Env) (level : String) (s : Sys) : Except String Unit × Sys :=
  _setup w env { s with selfLevel := strUpper level }

/-- Logger._stack_trace: scan inspect.stack() from index 1, skip every frame
whose filename ends with a suffix in EXCLUDE, and return basename and line
number of the first remaining frame, defaulting to Unknown and 0. -/
def _stack_trace (stack : List Frame) : CallerInfo :=
  match (stack.drop 1).find? (fun f => !endsWithAny f.filename EXCLUDE) with
  | some f => ⟨basename f.filename, f.lineno⟩
  | none => ⟨"Unknown", 0⟩

/-- The source file of this component as it appears in frame filenames. -/
def loggerFile : String := "vulcan_logger/logger.py"

/-- The stack inspect.stack() returns while _stack_trace runs inside a
public method: the frames of _stack_trace, _base and the method itself (all
in logger.py) followed by the frames of the user call stack. -/
def inspectStack (lvl : Level) (userStack : List Frame) : List Frame :=
  ⟨loggerFile, 108⟩ :: ⟨loggerFile, 129⟩ ::
    ⟨loggerFile,
      match lvl with
      | Level.debug => 140
      | Level.info => 150
      | Level.warning => 160
      | Level.critical => 170
      | Level.error => 180⟩ :: userStack

/-- Logger._base: resolve caller info via _stack_trace, then delegate to
the underlying logger severity method. No try/except here. -/
def _base (w : World) (lvl : Level) (message : String) (ei : Bool)
    (userStack : List Frame) (s : Sys) : Except String Unit × Sys :=
  let caller_info := _stack_trace (inspectStack lvl userStack)
  logging_call w lvl message caller_info ei s

/-- Logger.debug. -/
def debug (w : World) (message : String) (userStack : List Frame) (s : Sys) :
    Except String Unit × Sys :=
  _base w Level.debug message false userStack s

/-- Logger.info. -/
def info (w : World) (message : String) (userStack : List Frame) (s : Sys) :
    Except String Unit × Sys :=
  _base w Level.info message false userStack s

/-- Logger.warning. -/
def warning (w : World) (message : String) (userStack : List Frame) (s : Sys) :
    Except String Unit × Sys :=
  _base w Level.warning message false userStack s

/-- Logger.critical. -/
def critical (w : World) (message : String) (userStack : List Frame) (s : Sys) :
    Except String Unit × Sys :=
  _base w Level.critical message false userStack s

/-- Logger.error: the only method passing exc_info true. -/
def error (w : World) (message : String) (userStack : List Frame) (s : Sys) :
    Except String Unit × Sys :=
  _base w Level.error message true userStack s

end Logger

/-! ### Spec-side definitions and concrete fixtures -/

/-- Spec-side effective level: the value of VULCAN_LOG_LEVEL when set, else
the configured level, in either case upper-cased. -/
def effLevelSpec (env : Env) (configured : String) : String :=
  match env.VULCAN_LOG_LEVEL with
  | some v => strUpper v
  | none => strUpper configured

/-- A world without injected faults. -/
def w0 : World := ⟨none, none, none, none⟩

/-- A world where the underlying logger severity method raises. -/
def wDispatchFail : World := ⟨none, none, none, some "boom"⟩

/-- A pristine system state. -/
def s0 : Sys := ⟨"DEBUG", [], [], [], [], [], []⟩

/-- An environment with every variable unset. -/
def env0 : Env := ⟨none, none, none⟩

/-! ### Helper lemmas -/

/-- The implementation expression for the effective level agrees with the
spec phrasing that upper-cases whichever branch is taken. -/
theorem eff_level_eq_spec (env : Env) (s : Sys) :
    Logger.eff_level env s = effLevelSpec env s.selfLevel := by
  unfold Logger.eff_level effLevelSpec
  cases env.VULCAN_LOG_LEVEL <;> rfl

/-! ### Claim theorems -/

/-- Claim C9: for every context message and caught fault, the internal-error
fallback never raises: it returns ok, appends exactly one pre-formatted line
to an output stream, and changes nothing else in the system. -/
theorem internal_error_infallible (m e : String) (s : Sys) :
    (Logger._internal_error m e s).1 = Except.ok ()
    ∧ (Logger._internal_error m e s).2.stdout = s.stdout ++ [fallbackLine m e]
    ∧ (Logger._internal_error m e s).2.stderr = s.stderr
    ∧ (Logger._internal_error m e s).2.handlers = s.handlers
    ∧ (Logger._internal_error m e s).2.records = s.records
    ∧ (Logger._internal_error m e s).2.dirs = s.dirs
    ∧ (Logger._internal_error m e s).2.files = s.files
    ∧ (Logger._internal_error m e s).2.selfLevel = s.selfLevel :=
  ⟨rfl, rfl, rfl, rfl, rfl, rfl, rfl, rfl⟩

/-- Claim C2: the fallback line has exactly the claimed text, but the code
prints it with a bare print call, which writes to standard output, not to
the standard error stream the claim (and the codes own comment) names. -/
theorem internal_error_prints_to_stdout :
    (Logger._internal_error "m" "boom" s0).2.stdout
        = ["Internal Logger Error: m | Exception: boom"]
    ∧ (Logger._internal_error "m" "boom" s0).2.stderr = [] := by
  exact ⟨by decide, by decide⟩

/-- Claim C10: every public logging method leaves the stored level, the
handler list, the directories and the files of the system unchanged. -/
theorem log_methods_preserve_state (w : World) (msg : String) (us : List Frame) (s : Sys) :
    ((Logger.debug w msg us s).2.selfLevel = s.selfLevel
      ∧ (Logger.debug w msg us s).2.handlers = s.handlers
      ∧ (Logger.debug w msg us s).2.dirs = s.dirs
      ∧ (Logger.debug w msg us s).2.files = s.files)
    ∧ ((Logger.info w msg us s).2.selfLevel = s.selfLevel
      ∧ (Logger.info w msg us s).2.handlers = s.handlers
      ∧ (Logger.info w msg us s).2.dirs = s.dirs
      ∧ (Logger.info w msg us s).2.files = s.files)
    ∧ ((Logger.warning w msg us s).2.selfLevel = s.selfLevel
      ∧ (Logger.warning w msg us s).2.handlers = s.handlers
      ∧ (Logger.warning w msg us s).2.dirs = s.dirs
      ∧ (Logger.warning w msg us s).2.files = s.files)
    ∧ ((Logger.critical w msg us s).2.selfLevel = s.selfLevel
      ∧ (Logger.critical w msg us s).2.handlers = s.handlers
      ∧ (Logger.critical w msg us s).2.dirs = s.dirs
      ∧ (Logger.critical w msg us s).2.files = s.files)
    ∧ ((Logger.error w msg us s).2.selfLevel = s.selfLevel
      ∧ (Logger.error w msg us s).2.handlers = s.handlers
      ∧ (Logger.error w msg us s).2.dirs = s.dirs
      ∧ (Logger.error w msg us s).2.files = s.files) := by
  obtain ⟨iF, mF, fF, dF⟩ := w
  cases dF <;>
    exact ⟨⟨rfl, rfl, rfl, rfl⟩, ⟨rfl, rfl, rfl, rfl⟩, ⟨rfl, rfl, rfl, rfl⟩,
      ⟨rfl, rfl, rfl, rfl⟩, ⟨rfl, rfl, rfl, rfl⟩⟩

/-- Claim C1 counterexample: a fault raised by the underlying logger while
a public method delegates to it is NOT caught: the call ends with the
exception propagating, and no fallback line is written to either stream. -/
theorem dispatch_fault_not_caught_cex :
    (Logger.debug wDispatchFail "hi" [] s0).1 = Except.error "boom"
    ∧ (Logger.debug wDispatchFail "hi" [] s0).2.stdout = []
    ∧ (Logger.debug wDispatchFail "hi" [] s0).2.stderr = [] :=
  ⟨rfl, rfl, rfl⟩

/-- Claim C1 amended: a fault raised while delegating a log call to the
underlying logger propagates unchanged out of every public logging method,
with the system state untouched and the internal-error fallback not
invoked. -/
theorem dispatch_fault_propagates (w : World) (e msg : String) (us : List Frame) (s : Sys)
    (h : w.dispatchFault = some e) :
    Logger.debug w msg us s = (Except.error e, s)
    ∧ Logger.info w msg us s = (Except.error e, s)
    ∧ Logger.warning w msg us s = (Except.error e, s)
    ∧ Logger.critical w msg us s = (Except.error e, s)
    ∧ Logger.error w msg us s = (Except.error e, s) := by
  obtain ⟨iF, mF, fF, dF⟩ := w
  cases dF with
  | none => exact Option.noConfusion h
  | some x =>
    have hx : x = e := Option.some.inj h
    subst hx
    exact ⟨rfl, rfl, rfl, rfl, rfl⟩

/-- Witness for the amended claim C1 at a concrete fault. -/
theorem dispatch_fault_propagates_witness :
    Logger.debug wDispatchFail "hi" [] s0 = (Except.error "boom", s0)
    ∧ Logger.info wDispatchFail "hi" [] s0 = (Except.error "boom", s0)
    ∧ Logger.warning wDispatchFail "hi" [] s0 = (Except.error "boom", s0)
    ∧ Logger.critical wDispatchFail "hi" [] s0 = (Except.error "boom", s0)
    ∧ Logger.error wDispatchFail "hi" [] s0 = (Except.error "boom", s0) :=
  dispatch_fault_propagates wDispatchFail "boom" "hi" [] s0 rfl

/-- Claim C4: when delegation succeeds, each public method appends one
record carrying its own severity and an exc_info flag that is true exactly
for the error method and false for the other four. -/
theorem exc_info_only_for_error (w : World) (msg : String) (us : List Frame) (s : Sys)
    (h : w.dispatchFault = none) :
    (Logger.debug w msg us s).2.records
        = s.records ++ [⟨Level.debug, msg,
            Logger._stack_trace (Logger.inspectStack Level.debug us), false⟩]
    ∧ (Logger.info w msg us s).2.records
        = s.records ++ [⟨Level.info, msg,
            Logger._stack_trace (Logger.inspectStack Level.info us), false⟩]
    ∧ (Logger.warning w msg us s).2.records
        = s.records ++ [⟨Level.warning, msg,
            Logger._stack_trace (Logger.inspectStack Level.warning us), false⟩]
    ∧ (Logger.critical w msg us s).2.records
        = s.records ++ [⟨Level.critical, msg,
            Logger._stack_trace (Logger.inspectStack Level.critical us), false⟩]
    ∧ (Logger.error w msg us s).2.records
        = s.records ++ [⟨Level.error, msg,
            Logger._stack_trace (Logger.inspectStack Level.error us), true⟩] := by
  obtain ⟨iF, mF, fF, dF⟩ := w
  cases dF with
  | none => exact ⟨rfl, rfl, rfl, rfl, rfl⟩
  | some x => exact Option.noConfusion h

/-- Witness for claim C4 at a concrete call. -/
theorem exc_info_only_for_error_witness :
    (Logger.debug w0 "hi" [] s0).2.records
        = s0.records ++ [⟨Level.debug, "hi",
            Logger._stack_trace (Logger.inspectStack Level.debug []), false⟩]
    ∧ (Logger.info w0 "hi" [] s0).2.records
        = s0.records ++ [⟨Level.info, "hi",
            Logger._stack_trace (Logger.inspectStack Level.info []), false⟩]
    ∧ (Logger.warning w0 "hi" [] s0).2.records
        = s0.records ++ [⟨Level.warning, "hi",
            Logger._stack_trace (Logger.inspectStack Level.warning []), false⟩]
    ∧ (Logger.critical w0 "hi" [] s0).2.records
        = s0.records ++ [⟨Level.critical, "hi",
            Logger._stack_trace (Logger.inspectStack Level.critical []), false⟩]
    ∧ (Logger.error w0 "hi" [] s0).2.records
        = s0.records ++ [⟨Level.error, "hi",
            Logger._stack_trace (Logger.inspectStack Level.error []), true⟩] :=
  exc_info_only_for_error w0 "hi" [] s0 rfl

/-- Claim C3: the caller resolution scans the frames after the first stack
entry in order, skips every frame whose file path ends with one of the four
excluded suffixes, returns base name and line of the first non-excluded
frame, and returns the Unknown default when every frame is excluded. -/
theorem stack_trace_first_non_excluded (stack : List Frame) :
    (∀ pre f post, stack.drop 1 = pre ++ f :: post →
        (∀ g ∈ pre, endsWithAny g.filename EXCLUDE = true) →
        endsWithAny f.filename EXCLUDE = false →
        Logger._stack_trace stack = ⟨basename f.filename, f.lineno⟩)
    ∧ ((∀ g ∈ stack.drop 1, endsWithAny g.filename EXCLUDE = true) →
        Logger._stack_trace stack = ⟨"Unknown", 0⟩) := by
  constructor
  · intro pre f post hsplit hpre hf
    unfold Logger._stack_trace
    rw [hsplit]
    have hpre2 : pre.find? (fun g => !endsWithAny g.filename EXCLUDE) = none := by
      rw [List.find?_eq_none]
      intro g hg
      simp [hpre g hg]
    rw [List.find?_append, hpre2, Option.none_or]
    rw [List.find?_cons_of_pos]
    · simp [hf]
  · intro hall
    unfold Logger._stack_trace
    have hnone : (stack.drop 1).find? (fun g => !endsWithAny g.filename EXCLUDE) = none := by
      rw [List.find?_eq_none]
      intro g hg
      simp [hall g hg]
    rw [hnone]

/-- Witness for claim C3: a stack whose internal frames are excluded and
whose first user frame is returned with its base name and line. -/
theorem stack_trace_first_non_excluded_witness :
    Logger._stack_trace
        [⟨"vulcan_logger/logger.py", 108⟩, ⟨"vulcan_logger/logger.py", 129⟩,
          ⟨"app/main.py", 42⟩]
      = ⟨"main.py", 42⟩ :=
  (stack_trace_first_non_excluded
      [⟨"vulcan_logger/logger.py", 108⟩, ⟨"vulcan_logger/logger.py", 129⟩,
        ⟨"app/main.py", 42⟩]).1
    [⟨"vulcan_logger/logger.py", 129⟩] ⟨"app/main.py", 42⟩ [] rfl
    (by decide) (by decide)

/-- With no install fault, installing coloredlogs appends one console
handler at the effective level. -/
theorem install_ok_eq (w : World) (env : Env) (s : Sys) (h : w.installFault = none) :
    Logger._install_coloredlogs w env s
      = (Except.ok (), { s with handlers :=
          s.handlers ++ [⟨Logger.eff_level env s, LOG_FORMAT, DATE_FORMAT, Sink.console⟩] }) := by
  simp [Logger._install_coloredlogs, coloredlogs_install, h]

/-- With an install fault, the fault is caught and one fallback line is
printed. -/
theorem install_fault_eq (w : World) (env : Env) (s : Sys) (e : String)
    (h : w.installFault = some e) :
    Logger._install_coloredlogs w env s
      = (Except.ok (), { s with stdout :=
          s.stdout ++ [fallbackLine "Error installing coloredlogs" e] }) := by
  simp [Logger._install_coloredlogs, coloredlogs_install, Logger._internal_error, h]

/-- An already existing directory short-circuits _make_dir with no change
and no error. -/
theorem make_dir_exists_eq (w : World) (p : String) (s : Sys)
    (h : p ∈ s.dirs) :
    Logger._make_dir w p s = (Except.ok (), s) := by
  simp [Logger._make_dir, h]

/-- With no makedirs fault and an absent directory, _make_dir creates the
directory and its ancestors. -/
theorem make_dir_ok_eq (w : World) (p : String) (s : Sys)
    (h1 : p ∉ s.dirs) (h2 : w.makedirsFault = none) :
    Logger._make_dir w p s = (Except.ok (), { s with dirs := s.dirs ++ ancestorDirs p }) := by
  simp [Logger._make_dir, os_makedirs, h1, h2]

/-- With a makedirs fault, the fault is caught and one fallback line is
printed. -/
theorem make_dir_fault_eq (w : World) (p : String) (s : Sys) (e : String)
    (h1 : p ∉ s.dirs) (h2 : w.makedirsFault = some e) :
    Logger._make_dir w p s
      = (Except.ok (), { s with stdout :=
          s.stdout ++ [fallbackLine "Error creating the log directory" e] }) := by
  simp [Logger._make_dir, os_makedirs, Logger._internal_error, h1, h2]

/-- With no file handler fault, _file_handler attaches one file handler at
the joined path and records the file. -/
theorem file_handler_ok_eq (w : World) (env : Env) (p : String) (s : Sys)
    (h : w.fileHandlerFault = none) :
    Logger._file_handler w env p s
      = (Except.ok (), { s with
          handlers := s.handlers ++ [⟨Logger.eff_level env s, LOG_FORMAT, DATE_FORMAT,
            Sink.file (path_join p (Logger._file_name env))⟩],
          files := if s.files.contains (path_join p (Logger._file_name env)) then s.files
            else s.files ++ [path_join p (Logger._file_name env)] }) := by
  simp [Logger._file_handler, h]

/-- With a file handler fault, the fault is caught and one fallback line is
printed. -/
theorem file_handler_fault_eq (w : World) (env : Env) (p : String) (s : Sys) (e : String)
    (h : w.fileHandlerFault = some e) :
    Logger._file_handler w env p s
      = (Except.ok (), { s with stdout :=
          s.stdout ++ [fallbackLine "Error creating log file handler" e] }) := by
  simp [Logger._file_handler, Logger._internal_error, h]

/-- _install_coloredlogs always returns ok: its try/except swallows the
fault. -/
theorem install_shape (w : World) (env : Env) (s : Sys) :
    Logger._install_coloredlogs w env s
      = (Except.ok (), (Logger._install_coloredlogs w env s).2) := by
  rcases hf : w.installFault with _ | e
  · rw [install_ok_eq w env s hf]
  · rw [install_fault_eq w env s e hf]

/-- _make_dir always returns ok: its try/except swallows the fault. -/
theorem make_dir_shape (w : World) (p : String) (s : Sys) :
    Logger._make_dir w p s = (Except.ok (), (Logger._make_dir w p s).2) := by
  by_cases hc : p ∈ s.dirs
  · rw [make_dir_exists_eq w p s hc]
  · rcases hf : w.makedirsFault with _ | e
    · rw [make_dir_ok_eq w p s hc hf]
    · rw [make_dir_fault_eq w p s e hc hf]

/-- _file_handler always returns ok: its try/except swallows the fault. -/
theorem file_handler_shape (w : World) (env : Env) (p : String) (s : Sys) :
    Logger._file_handler w env p s
      = (Except.ok (), (Logger._file_handler w env p s).2) := by
  rcases hf : w.fileHandlerFault with _ | e
  · rw [file_handler_ok_eq w env p s hf]
  · rw [file_handler_fault_eq w env p s e hf]

/-- When the log_path variable is unset or empty, _setup is exactly the
console installation step. -/
theorem setup_no_file_eq (w : World) (env : Env) (s : Sys)
    (h : envTruthy env.log_path = false) :
    Logger._setup w env s = Logger._install_coloredlogs w env s := by
  conv_lhs => rw [Logger._setup]
  rw [install_shape w env s, h]
  simp

/-- When the log_path variable is set non-empty, _setup is console
installation, then directory creation, then file handler attachment. -/
theorem setup_file_eq (w : World) (env : Env) (s : Sys) (p : String)
    (hlp : env.log_path = some p) (hne : p ≠ "") :
    Logger._setup w env s
      = Logger._file_handler w env p
          (Logger._make_dir w p (Logger._install_coloredlogs w env s).2).2 := by
  have ht : envTruthy (some p) = true := by simp [envTruthy, hne]
  conv_lhs => rw [Logger._setup]
  rw [install_shape w env s]
  simp only [hlp, ht, if_true, Option.getD_some]
  rw [make_dir_shape w p (Logger._install_coloredlogs w env s).2]
  simp only []
  rw [file_handler_shape w env p (Logger._make_dir w p (Logger._install_coloredlogs w env s).2).2]

/-- Fields _install_coloredlogs never touches. -/
theorem install_preserves (w : World) (env : Env) (s : Sys) :
    (Logger._install_coloredlogs w env s).2.selfLevel = s.selfLevel
    ∧ (Logger._install_coloredlogs w env s).2.dirs = s.dirs
    ∧ (Logger._install_coloredlogs w env s).2.files = s.files
    ∧ (Logger._install_coloredlogs w env s).2.records = s.records
    ∧ (Logger._install_coloredlogs w env s).2.stderr = s.stderr := by
  rcases hf : w.installFault with _ | e
  · rw [install_ok_eq w env s hf]; exact ⟨rfl, rfl, rfl, rfl, rfl⟩
  · rw [install_fault_eq w env s e hf]; exact ⟨rfl, rfl, rfl, rfl, rfl⟩

/-- Fields _make_dir never touches. -/
theorem make_dir_preserves (w : World) (p : String) (s : Sys) :
    (Logger._make_dir w p s).2.selfLevel = s.selfLevel
    ∧ (Logger._make_dir w p s).2.handlers = s.handlers
    ∧ (Logger._make_dir w p s).2.files = s.files
    ∧ (Logger._make_dir w p s).2.records = s.records
    ∧ (Logger._make_dir w p s).2.stderr = s.stderr := by
  by_cases hc : p ∈ s.dirs
  · rw [make_dir_exists_eq w p s hc]; exact ⟨rfl, rfl, rfl, rfl, rfl⟩
  · rcases hf : w.makedirsFault with _ | e
    · rw [make_dir_ok_eq w p s hc hf]; exact ⟨rfl, rfl, rfl, rfl, rfl⟩
    · rw [make_dir_fault_eq w p s e hc hf]; exact ⟨rfl, rfl, rfl, rfl, rfl⟩

/-- Fields _file_handler never touches. -/
theorem file_handler_preserves (w : World) (env : Env) (p : String) (s : Sys) :
    (Logger._file_handler w env p s).2.selfLevel = s.selfLevel
    ∧ (Logger._file_handler w env p s).2.dirs = s.dirs
    ∧ (Logger._file_handler w env p s).2.records = s.records
    ∧ (Logger._file_handler w env p s).2.stderr = s.stderr := by
  rcases hf : w.fileHandlerFault with _ | e
  · rw [file_handler_ok_eq w env p s hf]; exact ⟨rfl, rfl, rfl, rfl⟩
  · rw [file_handler_fault_eq w env p s e hf]; exact ⟨rfl, rfl, rfl, rfl⟩

/-- _make_dir only ever appends to standard output. -/
theorem make_dir_stdout_mono (w : World) (p : String) (s : Sys) :
    ∃ t, (Logger._make_dir w p s).2.stdout = s.stdout ++ t := by
  by_cases hc : p ∈ s.dirs
  · exact ⟨[], by rw [make_dir_exists_eq w p s hc]; simp⟩
  · rcases hf : w.makedirsFault with _ | e
    · exact ⟨[], by rw [make_dir_ok_eq w p s hc hf]; simp⟩
    · exact ⟨[fallbackLine "Error creating the log directory" e],
        by rw [make_dir_fault_eq w p s e hc hf]⟩

/-- _file_handler only ever appends to standard output. -/
theorem file_handler_stdout_mono (w : World) (env : Env) (p : String) (s : Sys) :
    ∃ t, (Logger._file_handler w env p s).2.stdout = s.stdout ++ t := by
  rcases hf : w.fileHandlerFault with _ | e
  · exact ⟨[], by rw [file_handler_ok_eq w env p s hf]; simp⟩
  · exact ⟨[fallbackLine "Error creating log file handler" e],
      by rw [file_handler_fault_eq w env p s e hf]⟩

/-- The effective level only depends on the stored level. -/
theorem eff_level_congr (env : Env) (s t : Sys) (h : s.selfLevel = t.selfLevel) :
    Logger.eff_level env s = Logger.eff_level env t := by
  unfold Logger.eff_level
  rw [h]

/-- The file name agrees with the spec phrasing by cases on the variable. -/
theorem file_name_spec (env : Env) :
    Logger._file_name env
      = (match env.VULCAN_LOG_NAME with | some v => v | none => "vulcan") ++ ".log" := by
  unfold Logger._file_name
  cases env.VULCAN_LOG_NAME <;> rfl

/-- A path is among its own ancestor set. -/
theorem mem_ancestorDirs_self (p : String) : p ∈ ancestorDirs p := by
  simp [ancestorDirs]

/-- Claim C5: construction never raises for any name and level; every setup
fault (console sink, directory creation, file sink) is caught where it
occurs and reported through the internal-error fallback, and a console-sink
failure does not prevent the file sink from being attached. -/
theorem init_never_raises_and_reports (w : World) (env : Env) (level : String) (s : Sys) :
    (Logger.init w env level s).1 = Except.ok ()
    ∧ (∀ e, w.installFault = some e →
        fallbackLine "Error installing coloredlogs" e
          ∈ (Logger.init w env level s).2.stdout)
    ∧ (∀ e p, w.makedirsFault = some e → env.log_path = some p → p ≠ "" →
        p ∉ s.dirs →
        fallbackLine "Error creating the log directory" e
          ∈ (Logger.init w env level s).2.stdout)
    ∧ (∀ e p, w.fileHandlerFault = some e → env.log_path = some p → p ≠ "" →
        fallbackLine "Error creating log file handler" e
          ∈ (Logger.init w env level s).2.stdout)
    ∧ (∀ p, env.log_path = some p → p ≠ "" → w.fileHandlerFault = none →
        Sink.file (path_join p (Logger._file_name env))
          ∈ ((Logger.init w env level s).2.handlers).map Handler.sink) := by
  simp only [Logger.init]
  set sI := { s with selfLevel := strUpper level } with hsI
  refine ⟨?_, ?_, ?_, ?_, ?_⟩
  · by_cases hT : envTruthy env.log_path = true
    · rcases hl : env.log_path with _ | p
      · rw [hl] at hT; simp [envTruthy] at hT
      · have hp : p ≠ "" := by
          rw [hl] at hT; simpa [envTruthy] using hT
        rw [setup_file_eq w env sI p hl hp]
        rw [file_handler_shape w env p
          (Logger._make_dir w p (Logger._install_coloredlogs w env sI).2).2]
    · have hF : envTruthy env.log_path = false := by simpa using hT
      rw [setup_no_file_eq w env sI hF, install_shape w env sI]
  · intro e he
    by_cases hT : envTruthy env.log_path = true
    · rcases hl : env.log_path with _ | p
      · rw [hl] at hT; simp [envTruthy] at hT
      · have hp : p ≠ "" := by
          rw [hl] at hT; simpa [envTruthy] using hT
        rw [setup_file_eq w env sI p hl hp]
        obtain ⟨t3, ht3⟩ := file_handler_stdout_mono w env p
          (Logger._make_dir w p (Logger._install_coloredlogs w env sI).2).2
        obtain ⟨t2, ht2⟩ := make_dir_stdout_mono w p (Logger._install_coloredlogs w env sI).2
        rw [ht3, ht2, install_fault_eq w env sI e he]
        simp
    · have hF : envTruthy env.log_path = false := by simpa using hT
      rw [setup_no_file_eq w env sI hF, install_fault_eq w env sI e he]
      simp
  · intro e p he hlp hne hpd
    rw [setup_file_eq w env sI p hlp hne]
    have hd2 : p ∉ (Logger._install_coloredlogs w env sI).2.dirs := by
      rw [(install_preserves w env sI).2.1]
      exact hpd
    obtain ⟨t3, ht3⟩ := file_handler_stdout_mono w env p
      (Logger._make_dir w p (Logger._install_coloredlogs w env sI).2).2
    rw [ht3, make_dir_fault_eq w p (Logger._install_coloredlogs w env sI).2 e hd2 he]
    simp
  · intro e p he hlp hne
    rw [setup_file_eq w env sI p hlp hne]
    rw [file_handler_fault_eq w env p
      (Logger._make_dir w p (Logger._install_coloredlogs w env sI).2).2 e he]
    simp
  · intro p hlp hne hfn
    rw [setup_file_eq w env sI p hlp hne]
    rw [file_handler_ok_eq w env p
      (Logger._make_dir w p (Logger._install_coloredlogs w env sI).2).2 hfn]
    simp

/-- Witness for claim C5: all three setup faults injected at once; the
constructor still returns ok, each fault is reported once, and with the
faults present the file branch was still attempted. -/
theorem init_never_raises_and_reports_witness :
    (Logger.init ⟨some "E1", some "E2", some "E3", none⟩
        ⟨none, some "logs", none⟩ "debug" s0).1 = Except.ok ()
    ∧ fallbackLine "Error installing coloredlogs" "E1"
        ∈ (Logger.init ⟨some "E1", some "E2", some "E3", none⟩
            ⟨none, some "logs", none⟩ "debug" s0).2.stdout
    ∧ fallbackLine "Error creating the log directory" "E2"
        ∈ (Logger.init ⟨some "E1", some "E2", some "E3", none⟩
            ⟨none, some "logs", none⟩ "debug" s0).2.stdout
    ∧ fallbackLine "Error creating log file handler" "E3"
        ∈ (Logger.init ⟨some "E1", some "E2", some "E3", none⟩
            ⟨none, some "logs", none⟩ "debug" s0).2.stdout := by
  have h := init_never_raises_and_reports ⟨some "E1", some "E2", some "E3", none⟩
    ⟨none, some "logs", none⟩ "debug" s0
  exact ⟨h.1, h.2.1 "E1" rfl, h.2.2.1 "E2" "logs" rfl rfl (by decide) (by decide),
    h.2.2.2.1 "E3" "logs" rfl rfl (by decide)⟩

/-- Claim C6: with no faults in sink installation, every handler attached
by construction carries the level from VULCAN_LOG_LEVEL when that variable
is set, else the instance level, upper-cased in either case. -/
theorem sink_level_env_override (w : World) (env : Env) (level : String) (s : Sys)
    (hin : w.installFault = none) (hfh : w.fileHandlerFault = none) :
    ∃ hs, (Logger.init w env level s).2.handlers = s.handlers ++ hs
      ∧ hs ≠ []
      ∧ ∀ h ∈ hs, h.level = effLevelSpec env (strUpper level) := by
  simp only [Logger.init]
  set sI := { s with selfLevel := strUpper level } with hsI
  have hlev : Logger.eff_level env sI = effLevelSpec env (strUpper level) := by
    rw [eff_level_eq_spec]
  by_cases hT : envTruthy env.log_path = true
  · rcases hl : env.log_path with _ | p
    · rw [hl] at hT; simp [envTruthy] at hT
    · have hp : p ≠ "" := by
        rw [hl] at hT; simpa [envTruthy] using hT
      rw [setup_file_eq w env sI p hl hp]
      rw [file_handler_ok_eq w env p
        (Logger._make_dir w p (Logger._install_coloredlogs w env sI).2).2 hfh]
      have hsel : (Logger._make_dir w p (Logger._install_coloredlogs w env sI).2).2.selfLevel
          = strUpper level := by
        rw [(make_dir_preserves w p (Logger._install_coloredlogs w env sI).2).1,
          (install_preserves w env sI).1]
      have hlev2 : Logger.eff_level env
            (Logger._make_dir w p (Logger._install_coloredlogs w env sI).2).2
          = effLevelSpec env (strUpper level) := by
        rw [eff_level_eq_spec, hsel]
      have hh : (Logger._make_dir w p (Logger._install_coloredlogs w env sI).2).2.handlers
          = s.handlers ++ [⟨Logger.eff_level env sI, LOG_FORMAT, DATE_FORMAT, Sink.console⟩] := by
        rw [(make_dir_preserves w p (Logger._install_coloredlogs w env sI).2).2.1,
          install_ok_eq w env sI hin]
      refine ⟨[⟨Logger.eff_level env sI, LOG_FORMAT, DATE_FORMAT, Sink.console⟩,
        ⟨Logger.eff_level env (Logger._make_dir w p (Logger._install_coloredlogs w env sI).2).2,
          LOG_FORMAT, DATE_FORMAT, Sink.file (path_join p (Logger._file_name env))⟩],
        ?_, by simp, ?_⟩
      · simp [hh]
      · intro h hmem
        simp only [List.mem_cons, List.not_mem_nil, or_false] at hmem
        rcases hmem with rfl | rfl
        · exact hlev
        · exact hlev2
  · have hF : envTruthy env.log_path = false := by simpa using hT
    rw [setup_no_file_eq w env sI hF, install_ok_eq w env sI hin]
    refine ⟨[⟨Logger.eff_level env sI, LOG_FORMAT, DATE_FORMAT, Sink.console⟩],
      by simp, by simp, ?_⟩
    intro h hmem
    simp only [List.mem_cons, List.not_mem_nil, or_false] at hmem
    rcases hmem with rfl
    exact hlev

/-- Witness for claim C6 at a concrete environment that overrides the
level. -/
theorem sink_level_env_override_witness :
    ∃ hs, (Logger.init w0 ⟨some "info", some "logs", none⟩ "debug" s0).2.handlers
        = s0.handlers ++ hs
      ∧ hs ≠ []
      ∧ ∀ h ∈ hs, h.level = effLevelSpec ⟨some "info", some "logs", none⟩ (strUpper "debug") :=
  sink_level_env_override w0 ⟨some "info", some "logs", none⟩ "debug" s0 rfl rfl

/-- Claim C7: without faults, file output is configured exactly when the
log_path variable is set non-empty; unset or empty leaves the filesystem
untouched and attaches no file sink; set non-empty creates the directory
together with its missing ancestors when absent, reports no error even if
the directory already exists, and attaches the file sink. -/
theorem file_output_iff_log_path_set (w : World) (env : Env) (level : String) (s : Sys)
    (hin : w.installFault = none) (hmk : w.makedirsFault = none)
    (hfh : w.fileHandlerFault = none) :
    (envTruthy env.log_path = false →
        ((Logger.init w env level s).2.dirs = s.dirs
         ∧ (Logger.init w env level s).2.files = s.files
         ∧ ∀ h ∈ (Logger.init w env level s).2.handlers, h ∈ s.handlers ∨ h.sink = Sink.console))
    ∧ (∀ p, env.log_path = some p → p ≠ "" →
        (p ∈ (Logger.init w env level s).2.dirs
         ∧ (p ∉ s.dirs → ∀ d ∈ ancestorDirs p, d ∈ (Logger.init w env level s).2.dirs)
         ∧ (Logger.init w env level s).2.stdout = s.stdout
         ∧ Sink.file (path_join p (Logger._file_name env))
             ∈ ((Logger.init w env level s).2.handlers).map Handler.sink)) := by
  simp only [Logger.init]
  set sI := { s with selfLevel := strUpper level } with hsI
  have e1 : (Logger._install_coloredlogs w env sI).2
      = { sI with handlers := sI.handlers
          ++ [⟨Logger.eff_level env sI, LOG_FORMAT, DATE_FORMAT, Sink.console⟩] } := by
    rw [install_ok_eq w env sI hin]
  constructor
  · intro hF
    rw [setup_no_file_eq w env sI hF, install_ok_eq w env sI hin]
    refine ⟨rfl, rfl, ?_⟩
    intro h hmem
    simp at hmem
    rcases hmem with hmem | rfl
    · exact Or.inl hmem
    · exact Or.inr rfl
  · intro p hlp hne
    rw [setup_file_eq w env sI p hlp hne, e1]
    set sA := { sI with handlers := sI.handlers
        ++ [(⟨Logger.eff_level env sI, LOG_FORMAT, DATE_FORMAT, Sink.console⟩ : Handler)] } with hA
    by_cases hc : p ∈ s.dirs
    · have e2 : (Logger._make_dir w p sA).2 = sA := by
        rw [make_dir_exists_eq w p sA (show p ∈ sA.dirs from hc)]
      rw [e2]
      have e3 : (Logger._file_handler w env p sA).2
          = { sA with
              handlers := sA.handlers ++ [⟨Logger.eff_level env sA, LOG_FORMAT, DATE_FORMAT,
                Sink.file (path_join p (Logger._file_name env))⟩],
              files := if sA.files.contains (path_join p (Logger._file_name env)) then sA.files
                else sA.files ++ [path_join p (Logger._file_name env)] } := by
        rw [file_handler_ok_eq w env p sA hfh]
      rw [e3]
      refine ⟨hc, fun hnc => absurd hc hnc, rfl, ?_⟩
      simp
    · have e2 : (Logger._make_dir w p sA).2 = { sA with dirs := sA.dirs ++ ancestorDirs p } := by
        rw [make_dir_ok_eq w p sA (show p ∉ sA.dirs from hc) hmk]
      rw [e2]
      set sB := { sA with dirs := sA.dirs ++ ancestorDirs p } with hB
      have e3 : (Logger._file_handler w env p sB).2
          = { sB with
              handlers := sB.handlers ++ [⟨Logger.eff_level env sB, LOG_FORMAT, DATE_FORMAT,
                Sink.file (path_join p (Logger._file_name env))⟩],
              files := if sB.files.contains (path_join p (Logger._file_name env)) then sB.files
                else sB.files ++ [path_join p (Logger._file_name env)] } := by
        rw [file_handler_ok_eq w env p sB hfh]
      rw [e3]
      refine ⟨?_, ?_, rfl, ?_⟩
      · exact List.mem_append_right _ (mem_ancestorDirs_self p)
      · intro _ d hd
        exact List.mem_append_right _ hd
      · simp

/-- Witness for claim C7: a fresh directory is created when log_path is
set, no error line appears, and nothing is created when it is unset. -/
theorem file_output_iff_log_path_set_witness :
    "logs" ∈ (Logger.init w0 ⟨none, some "logs", none⟩ "debug" s0).2.dirs
    ∧ (Logger.init w0 ⟨none, some "logs", none⟩ "debug" s0).2.stdout = s0.stdout
    ∧ (Logger.init w0 ⟨none, none, none⟩ "debug" s0).2.dirs = s0.dirs := by
  have h1 := file_output_iff_log_path_set w0 ⟨none, some "logs", none⟩ "debug" s0 rfl rfl rfl
  have h2 := file_output_iff_log_path_set w0 ⟨none, none, none⟩ "debug" s0 rfl rfl rfl
  have h3 := h1.2 "logs" rfl (by decide)
  exact ⟨h3.1, h3.2.2.1, (h2.1 rfl).1⟩

/-- Claim C8: when file output is configured, the file sink path is the
join of log_path with the file name made of VULCAN_LOG_NAME (default
vulcan) plus the .log extension, and the file sink shares the console
sink record format, timestamp pattern and level. -/
theorem file_sink_path_and_format (w : World) (env : Env) (level : String) (s : Sys)
    (hin : w.installFault = none) (hfh : w.fileHandlerFault = none)
    (p : String) (hlp : env.log_path = some p) (hne : p ≠ "") :
    ∃ cons fh, (Logger.init w env level s).2.handlers = s.handlers ++ [cons, fh]
      ∧ cons.sink = Sink.console
      ∧ fh.sink = Sink.file (path_join p
          ((match env.VULCAN_LOG_NAME with | some v => v | none => "vulcan") ++ ".log"))
      ∧ fh.fmt = cons.fmt
      ∧ fh.datefmt = cons.datefmt
      ∧ fh.level = cons.level := by
  simp only [Logger.init]
  set sI := { s with selfLevel := strUpper level } with hsI
  have e1 : (Logger._install_coloredlogs w env sI).2
      = { sI with handlers := sI.handlers
          ++ [⟨Logger.eff_level env sI, LOG_FORMAT, DATE_FORMAT, Sink.console⟩] } := by
    rw [install_ok_eq w env sI hin]
  rw [setup_file_eq w env sI p hlp hne, e1]
  set sA := { sI with handlers := sI.handlers
      ++ [(⟨Logger.eff_level env sI, LOG_FORMAT, DATE_FORMAT, Sink.console⟩ : Handler)] } with hA
  have hh : (Logger._make_dir w p sA).2.handlers = sA.handlers :=
    (make_dir_preserves w p sA).2.1
  have hsel : (Logger._make_dir w p sA).2.selfLevel = sI.selfLevel :=
    (make_dir_preserves w p sA).1
  have e3 : (Logger._file_handler w env p (Logger._make_dir w p sA).2).2
      = { (Logger._make_dir w p sA).2 with
          handlers := (Logger._make_dir w p sA).2.handlers
            ++ [⟨Logger.eff_level env (Logger._make_dir w p sA).2, LOG_FORMAT, DATE_FORMAT,
              Sink.file (path_join p (Logger._file_name env))⟩],
          files := if (Logger._make_dir w p sA).2.files.contains
              (path_join p (Logger._file_name env)) then (Logger._make_dir w p sA).2.files
            else (Logger._make_dir w p sA).2.files ++ [path_join p (Logger._file_name env)] } := by
    rw [file_handler_ok_eq w env p (Logger._make_dir w p sA).2 hfh]
  rw [e3]
  refine ⟨⟨Logger.eff_level env sI, LOG_FORMAT, DATE_FORMAT, Sink.console⟩,
    ⟨Logger.eff_level env (Logger._make_dir w p sA).2, LOG_FORMAT, DATE_FORMAT,
      Sink.file (path_join p (Logger._file_name env))⟩, ?_, rfl, ?_, rfl, rfl, ?_⟩
  · show (Logger._make_dir w p sA).2.handlers ++ [_] = _
    rw [hh]
    simp
  · rw [file_name_spec env]
  · exact eff_level_congr env (Logger._make_dir w p sA).2 sI hsel

/-- Witness for claim C8 at a concrete environment naming the file app. -/
theorem file_sink_path_and_format_witness :
    ∃ cons fh,
      (Logger.init w0 ⟨none, some "logs", some "app"⟩ "debug" s0).2.handlers
          = s0.handlers ++ [cons, fh]
      ∧ cons.sink = Sink.console
      ∧ fh.sink = Sink.file (path_join "logs"
          ((match (⟨none, some "logs", some "app"⟩ : Env).VULCAN_LOG_NAME with
            | some v => v
            | none => "vulcan") ++ ".log"))
      ∧ fh.fmt = cons.fmt
      ∧ fh.datefmt = cons.datefmt
      ∧ fh.level = cons.level :=
  file_sink_path_and_format w0 ⟨none, some "logs", some "app"⟩ "debug" s0 rfl rfl "logs" rfl
    (by decide)
